import Mathlib

/-!
Verification of the Bidness outbound-dispatch engine.

The definitions below are a shallow embedding of the Python sources
`eleven_batch_call.py` / `app.py` (ElevenLabs outbound-call batch service)
and `sms_blast.py` (Google-Sheets-driven SMS blaster).  External effects
(the provider SDK, the spreadsheet store, `time.sleep`) are modelled by
oracle functions and by explicit traces: the list of dispatch-call results
issued and the list of backoff delays slept.
-/

namespace Bidness

/-- Normalized result of one provider call, after the `_to_dict`/`_pick`
extraction step: the optional correlation identifiers the adapter reads. -/
structure ProviderResp where
  conversation_id : Option String := none
  callSid : Option String := none
  sip_call_id : Option String := none
deriving Repr, DecidableEq

/-- A Python exception escaping the provider SDK: its type name and message. -/
structure PyExc where
  name : String
  msg : String
deriving Repr, DecidableEq

/-- The result dictionary built by `dial_once` / `dial_with_retries`.
Absent dictionary keys are `none`. -/
structure DialResult where
  ok : Bool
  provider : Option String := none
  error : Option String := none
  conversation_id : Option String := none
  callSid : Option String := none
  sip_call_id : Option String := none
  attempts : Option Nat := none
deriving Repr, DecidableEq

/-- One request item (the JSON payload of a single call).  A field that is
`none` models an absent key or a JSON `null`; `some ""` models an empty
string.  Both are falsy for `payload.get(k)` truth tests. -/
structure Item where
  to_number : Option String := none
  agent_id : Option String := none
  agent_phone_number_id : Option String := none
  provider : Option String := none
deriving Repr, DecidableEq

/-- Python truthiness test `not payload.get(k)` for an optional string. -/
def falsy : Option String → Bool
  | none => true
  | some s => s = ""

/-- Dictionary-style field access `payload.get(k)` on an `Item`. -/
def itemGet (it : Item) (k : String) : Option String :=
  if k = "to_number" then it.to_number
  else if k = "agent_id" then it.agent_id
  else if k = "agent_phone_number_id" then it.agent_phone_number_id
  else if k = "provider" then it.provider
  else none

/-- The required keys checked by `dial_once`'s basic validation. -/
def requiredKeys : List String := ["to_number", "agent_id", "agent_phone_number_id"]

/-- `[k for k in [...] if not payload.get(k)]` from `dial_once`. -/
def missingFields (it : Item) : List String :=
  requiredKeys.filter (fun k => falsy (itemGet it k))

/-- Python `payload.get("provider") or "twilio"`: the default applies when
the key is absent, `None`, or the empty string. -/
def orDefault (o : Option String) (d : String) : String :=
  match o with
  | none => d
  | some s => if s = "" then d else s

/-- `dial_once` from `eleven_batch_call.py`/`app.py`.  The `oracle` is the
behaviour of the provider SDK on this call: either a normalized response or
a raised exception.  Returns the result dictionary together with the number
of outbound network calls performed (0 when validation fails, 1 otherwise). -/
def dial_once (oracle : Except PyExc ProviderResp) (payload : Item) : DialResult × Nat :=
  let provider := (orDefault payload.provider "twilio").toLower
  let missing := missingFields payload
  if missing ≠ [] then
    ({ok := false, error := some ("Missing fields: " ++ String.intercalate ", " missing)}, 0)
  else
    match oracle with
    | Except.error e => ({ok := false, error := some (e.name ++ ": " ++ e.msg)}, 1)
    | Except.ok resp =>
        if provider = "sip" then
          ({ok := true, provider := some "sip",
            conversation_id := resp.conversation_id,
            sip_call_id := resp.sip_call_id}, 1)
        else
          ({ok := true, provider := some "twilio",
            conversation_id := resp.conversation_id,
            callSid := resp.callSid}, 1)

/-- The result dictionary of one `dial_once` invocation. -/
def dial1 (oracle : Except PyExc ProviderResp) (payload : Item) : DialResult :=
  (dial_once oracle payload).1

/-- Python `result["attempts"] = n` on a result dictionary. -/
def setAttempts (r : DialResult) (n : Nat) : DialResult :=
  {r with attempts := some n}

/-- The fallback dictionary `{"ok": False, "error": "Unknown error"}`. -/
def unknownResult : DialResult :=
  {ok := false, error := some "Unknown error"}

/-- The `while attempts <= retries` loop body of `dial_with_retries`.
`fuel` is the number of loop iterations still permitted, `attempts` the
Python counter, `last` the last failed result, `delays` the backoff sleeps
issued so far, `trace` the results of the `dial_once` calls issued so far.
The oracle is indexed by the (1-based) attempt number. -/
def retry_go (oracle : Nat → Except PyExc ProviderResp) (it : Item) (backoff : ℚ) :
    Nat → Nat → Option DialResult → List ℚ → List DialResult →
      DialResult × List DialResult × List ℚ
  | 0, attempts, last, delays, trace =>
      (setAttempts (last.getD unknownResult) attempts, trace, delays)
  | fuel + 1, attempts, _last, delays, trace =>
      let a := attempts + 1
      let result := dial1 (oracle a) it
      if result.ok then (setAttempts result a, trace ++ [result], delays)
      else retry_go oracle it backoff fuel a (some result)
        (delays ++ [min (backoff * (a : ℚ)) 6]) (trace ++ [result])

/-- `dial_with_retries` from `eleven_batch_call.py`/`app.py`.  Returns the
final result dictionary, the trace of dispatch-call results issued, and the
list of backoff delays slept (in seconds).  The while loop runs at most
`(retries + 1).toNat` iterations: `retries + 1` when `retries ≥ 0`, zero
when `retries < 0` (the guard `attempts <= retries` fails at once). -/
def dial_with_retries (oracle : Nat → Except PyExc ProviderResp) (it : Item)
    (retries : Int) (backoff : ℚ) : DialResult × List DialResult × List ℚ :=
  retry_go oracle it backoff (retries + 1).toNat 0 none [] []

/-- Final result dictionary of `dial_with_retries`. -/
def dwr_result (oracle : Nat → Except PyExc ProviderResp) (it : Item)
    (retries : Int) (backoff : ℚ) : DialResult :=
  (dial_with_retries oracle it retries backoff).1

/-- Trace of dispatch calls (`dial_once` results) issued by `dial_with_retries`. -/
def dwr_trace (oracle : Nat → Except PyExc ProviderResp) (it : Item)
    (retries : Int) (backoff : ℚ) : List DialResult :=
  (dial_with_retries oracle it retries backoff).2.1

/-- Backoff delays slept by `dial_with_retries`, in order. -/
def dwr_delays (oracle : Nat → Except PyExc ProviderResp) (it : Item)
    (retries : Int) (backoff : ℚ) : List ℚ :=
  (dial_with_retries oracle it retries backoff).2.2

/-- The JSON body (plus HTTP status) returned by the `/batch` route.
`delays` records the 1-based item indices after which an inter-item
`time.sleep(delay_seconds)` was performed. -/
structure BatchResponse where
  ok : Bool
  error : Option String := none
  total : Nat := 0
  successes : Nat := 0
  results : List (Nat × DialResult) := []
  delays : List Nat := []
  status : Nat := 200
deriving Repr, DecidableEq

/-- The `for i, item in enumerate(items, start=1)` loop of `api_call_batch`.
`n` is the total item count; the oracle is indexed by item index then
attempt number.  Returns the accumulated `(index, result)` list and the
indices after which an inter-item delay was slept. -/
def batch_go (oracle : Nat → Nat → Except PyExc ProviderResp)
    (d : ℚ) (retries : Int) (backoff : ℚ) (n : Nat) :
    List Item → Nat → List (Nat × DialResult) × List Nat
  | [], _ => ([], [])
  | item :: rest, i =>
      let res := (dial_with_retries (oracle i) item retries backoff).1
      let tail := batch_go oracle d retries backoff n rest (i + 1)
      ((i, res) :: tail.1, (if 0 < d ∧ i < n then [i] else []) ++ tail.2)

/-- The `/batch` route handler `api_call_batch` from
`eleven_batch_call.py`/`app.py`, for an already-parsed `items` list. -/
def api_call_batch (oracle : Nat → Nat → Except PyExc ProviderResp)
    (items : List Item) (d : ℚ) (retries : Int) (backoff : ℚ) : BatchResponse :=
  if items = [] then
    {ok := false, error := some "Provide JSON \x7b items: [...] \x7d", status := 400}
  else
    {ok := true, status := 200, total := items.length,
     successes := ((batch_go oracle d retries backoff items.length items 1).1.filter
       (fun p => p.2.ok)).length,
     results := (batch_go oracle d retries backoff items.length items 1).1,
     delays := (batch_go oracle d retries backoff items.length items 1).2}

/-! ### The SMS blaster (`sms_blast.py`) -/

/-- Python `str.strip()`: drop whitespace from both ends. -/
def pyStrip (s : String) : String :=
  ⟨((s.data.dropWhile Char.isWhitespace).reverse.dropWhile Char.isWhitespace).reverse⟩

/-- Python `str.upper()`: upper-case every character. -/
def pyUpper (s : String) : String :=
  ⟨s.data.map Char.toUpper⟩

/-- The status cell of a worksheet row:
`row[idx_status] if idx_status is not None and idx_status < len(row) else ""`. -/
def statusCell (row : List String) (idx_status : Option Nat) : String :=
  match idx_status with
  | some i => if i < row.length then row.getD i "" else ""
  | none => ""

/-- A row is pending for selection: its trimmed, upper-cased status cell is
not exactly `"SENT"`, and some cell is non-blank after trimming. -/
def RowPending (idx_status : Option Nat) (row : List String) : Prop :=
  pyUpper (pyStrip (statusCell row idx_status)) ≠ "SENT" ∧ ∃ c ∈ row, pyStrip c ≠ ""

instance decRowPending (idx_status : Option Nat) (row : List String) :
    Decidable (RowPending idx_status row) := by
  unfold RowPending; infer_instance

/-- The selection loop of `rows_to_send`: `for i, row in enumerate(values[1:],
start=2)`, with its two `continue` branches. -/
def rows_go (idx_status : Option Nat) : Nat → List (List String) → List (Nat × List String)
  | _, [] => []
  | i, row :: rest =>
      if pyUpper (pyStrip (statusCell row idx_status)) = "SENT" then
        rows_go idx_status (i + 1) rest
      else if ∀ c ∈ row, pyStrip c = "" then
        rows_go idx_status (i + 1) rest
      else (i, row) :: rows_go idx_status (i + 1) rest

/-- `rows_to_send` from `sms_blast.py`: the `(row_number, row)` pairs to
send, skipping already-SENT rows and entirely blank rows; row 1 is the
header, so data rows are numbered from 2. -/
def rows_to_send (values : List (List String)) (idx_status : Option Nat) :
    List (Nat × List String) :=
  rows_go idx_status 2 (values.drop 1)

/-- `to_send = targets[:DAILY_LIMIT]` from `main` in `sms_blast.py`. -/
def to_send (targets : List (Nat × List String)) (limit : Nat) :
    List (Nat × List String) :=
  targets.take limit

/-- `safe_get` from `sms_blast.py`. -/
def safe_get (row : List String) (idx : Option Nat) : String :=
  pyStrip (match idx with
    | some i => if i < row.length then row.getD i "" else ""
    | none => "")

/-- One accumulated spreadsheet update: the target row number and the four
cell values written (`Status`, `Sent_At`, `SID`, `Error`). -/
structure RowUpdate where
  rowNum : Nat
  values : List String
deriving Repr, DecidableEq

/-- The inner `for attempt in range(3)` Twilio send loop of `main`: `oracle`
gives each attempt's outcome (a message SID, or a `TwilioException` text).
Returns the final `(sid, error)` pair. -/
def send_with_retry (oracle : Nat → Except String String) :
    Nat → Nat → String → String × String
  | _, 0, err => ("", err)
  | attempt, fuel + 1, err =>
      match oracle attempt with
      | Except.ok sid => (sid, err)
      | Except.error e => send_with_retry oracle (attempt + 1) fuel e

/-- The per-row body of the `for row_number, row in to_send` loop of `main`:
the single status update appended for this row.  `sendOracle` gives the
Twilio outcome per row and attempt, `ts` is the `now_iso()` timestamp. -/
def process_row (sendOracle : Nat → Nat → Except String String) (dryRun : Bool)
    (idx_number idx_message : Option Nat) (ts : String)
    (rn : Nat) (row : List String) : RowUpdate :=
  if safe_get row idx_number = "" ∨ safe_get row idx_message = "" then
    ⟨rn, ["FAILED", ts, "", "Missing Number or Message"]⟩
  else if dryRun then
    ⟨rn, ["SENT", ts, "DRYRUN", ""]⟩
  else if (send_with_retry (sendOracle rn) 0 3 "").1 ≠ "" then
    ⟨rn, ["SENT", ts, (send_with_retry (sendOracle rn) 0 3 "").1, ""]⟩
  else
    ⟨rn, ["FAILED", ts, "", (send_with_retry (sendOracle rn) 0 3 "").2.take 500]⟩

/-- The status updates accumulated over one run of `main`, in worklist
order: one update per processed row. -/
def run_updates (sendOracle : Nat → Nat → Except String String) (dryRun : Bool)
    (idx_number idx_message : Option Nat) (ts : String)
    (rows : List (Nat × List String)) : List RowUpdate :=
  rows.map (fun p => process_row sendOracle dryRun idx_number idx_message ts p.1 p.2)

/-- The `chunk` generator of `main`, with explicit fuel (`lst.length`
suffices for any positive chunk size). -/
def chunk_go {α : Type} : Nat → List α → Nat → List (List α)
  | 0, _, _ => []
  | _, [], _ => []
  | fuel + 1, a :: tl, n => (a :: tl).take n :: chunk_go fuel ((a :: tl).drop n) n

/-- `chunk(lst, n)` from `main` in `sms_blast.py`: successive slices
`lst[i:i+n]`. -/
def chunk {α : Type} (lst : List α) (n : Nat) : List (List α) :=
  chunk_go lst.length lst n

/-- The flush loop `for group in chunk(updates, 100): ws.batch_update(group)`
applied to an already-chunked list.  `store` models `ws.batch_update`; an
exception it raises propagates out unchanged.  On success returns the
number of chunks flushed. -/
def flushChunks (store : List RowUpdate → Except String Unit) :
    List (List RowUpdate) → Nat → Except String Nat
  | [], k => Except.ok k
  | g :: gs, k =>
      match store g with
      | Except.ok _ => flushChunks store gs (k + 1)
      | Except.error e => Except.error e

/-- The flush phase of `main`: chunk the accumulated updates by 100 and
write each chunk to the backing store. -/
def flush_updates (store : List RowUpdate → Except String Unit)
    (updates : List RowUpdate) : Except String Nat :=
  flushChunks store (chunk updates 100) 0

/-- Index of the first chunk rejected by the store during the flush loop. -/
def firstFailIdx (store : List RowUpdate → Except String Unit) :
    List (List RowUpdate) → Nat → Option Nat
  | [], _ => none
  | g :: gs, k =>
      match store g with
      | Except.ok _ => firstFailIdx store gs (k + 1)
      | Except.error _ => some k

/-- Index of the chunk whose store write failed in `flush_updates`. -/
def flush_fail_idx (store : List RowUpdate → Except String Unit)
    (updates : List RowUpdate) : Option Nat :=
  firstFailIdx store (chunk updates 100) 0

/-- A fully-populated request item. -/
def fullItem : Item :=
  {to_number := some "+15551234567", agent_id := some "a",
   agent_phone_number_id := some "p"}

/-- A provider that raises `Timeout: boom` on every attempt. -/
def timeoutOracle : Nat → Except PyExc ProviderResp :=
  fun _ => Except.error ⟨"Timeout", "boom"⟩

/-- An item whose `to_number` is absent: every dispatch attempt fails in
validation, with no network call. -/
def failItem : Item :=
  {agent_id := some "agent", agent_phone_number_id := some "phone"}

/-- An item with only `agent_id` present. -/
def partialItem : Item := {agent_id := some "a"}

/-- A provider oracle (indexed by item then attempt) that always times out. -/
def timeoutOracle2 : Nat → Nat → Except PyExc ProviderResp :=
  fun _ _ => Except.error ⟨"Timeout", "boom"⟩

/-- A worksheet whose single data row was marked `failed ` (note case and
whitespace) by a previous run. -/
def sheetW : List (List String) :=
  [["Number", "Message", "Status"], ["+15551234567", "hello", " failed "]]

/-- The single data row of `sheetW`. -/
def rowW : List String := ["+15551234567", "hello", " failed "]

/-- A worksheet whose single data row is already marked `FAILED`. -/
def sheet_cex : List (List String) :=
  [["Number", "Message", "Status"], ["+15551234567", "hi", "FAILED"]]

/-- The single data row of `sheet_cex`. -/
def row_cex : List String := ["+15551234567", "hi", "FAILED"]

/-- A Twilio oracle whose first attempt always succeeds with SID `SM1`. -/
def okSms : Nat → Nat → Except String String := fun _ _ => Except.ok "SM1"

/-- A three-candidate worklist. -/
def targetsW : List (Nat × List String) :=
  [(2, ["+15550000001", "hi", ""]), (3, ["+15550000002", "hi", ""]),
   (4, ["+15550000003", "hi", ""])]

/-- One accumulated status update. -/
def upd_cex : RowUpdate := ⟨2, ["FAILED", "T", "", "boom"]⟩

/-- 101 accumulated updates: they flush as one chunk of 100 and one of 1. -/
def updates_cex : List RowUpdate := List.replicate 101 upd_cex

/-- A backing store whose write always raises. -/
def store_fail0 : List RowUpdate → Except String Unit :=
  fun _ => Except.error "boom"

/-- A backing store that accepts the first (100-element) chunk and raises on
the second. -/
def store_fail1 : List RowUpdate → Except String Unit :=
  fun g => if g.length = 100 then Except.ok () else Except.error "boom"

/-! ### Behaviour of the retry loop -/

/-- Invariant-carrying description of the retry loop.  Starting from a trace
of already-issued failed dispatch calls (with the Python `attempts` counter
equal to `trace.length` and `last` equal to the last trace entry), the loop
issues between `min fuel 1` and `fuel` further dispatch calls, the returned
`attempts` field counts all issued calls, every issued call before the final
one failed, the `j`-th new call is `dial_once` under the oracle for attempt
`trace.length + j + 1`, and if every attempt fails the loop exhausts its fuel
and returns the final attempt's result. -/
lemma retry_go_spec (oracle : Nat → Except PyExc ProviderResp) (it : Item) (backoff : ℚ) :
    ∀ (fuel : Nat) (trace : List DialResult) (delays : List ℚ),
      (∀ r ∈ trace, r.ok = false) →
      ∃ t : List DialResult,
        (retry_go oracle it backoff fuel trace.length trace.getLast? delays trace).2.1
          = trace ++ t ∧
        t.length ≤ fuel ∧
        (0 < fuel → 0 < t.length) ∧
        (retry_go oracle it backoff fuel trace.length trace.getLast? delays trace).1.attempts
          = some (trace.length + t.length) ∧
        (∀ r ∈ (trace ++ t).dropLast, r.ok = false) ∧
        (∀ j, j < t.length → t[j]? = some (dial1 (oracle (trace.length + j + 1)) it)) ∧
        ((∀ k, (dial1 (oracle k) it).ok = false) → 0 < fuel →
          t.length = fuel ∧
          (retry_go oracle it backoff fuel trace.length trace.getLast? delays trace).1
            = setAttempts (dial1 (oracle (trace.length + fuel)) it) (trace.length + fuel)) := by
  intro fuel
  induction fuel with
  | zero =>
      intro trace delays h
      refine ⟨[], by simp [retry_go], by simp, by omega, ?_, ?_, by simp, ?_⟩
      · simp [retry_go, setAttempts]
      · intro r hr
        exact h r (List.dropLast_subset _ (by simpa using hr))
      · intro _ hf
        exact absurd hf (by omega)
  | succ fuel ih =>
      intro trace delays h
      by_cases hok : (dial1 (oracle (trace.length + 1)) it).ok = true
      · -- first new attempt succeeds: the loop stops immediately
        refine ⟨[dial1 (oracle (trace.length + 1)) it], ?_, by simp, by simp, ?_, ?_, ?_, ?_⟩
        · simp [retry_go, hok]
        · simp [retry_go, hok, setAttempts]
        · intro r hr
          rw [List.dropLast_concat] at hr
          exact h r hr
        · intro j hj
          have hj0 : j = 0 := by
            simp only [List.length_singleton] at hj
            omega
          subst hj0
          simp
        · intro hall _
          exact absurd hok (by simp [hall])
      · -- first new attempt fails: one more iteration
        have hok' : (dial1 (oracle (trace.length + 1)) it).ok = false := by
          simpa using hok
        have hstep :
            retry_go oracle it backoff (fuel + 1) trace.length trace.getLast? delays trace
              = retry_go oracle it backoff fuel (trace.length + 1)
                  (some (dial1 (oracle (trace.length + 1)) it))
                  (delays ++ [min (backoff * ((trace.length + 1 : Nat) : ℚ)) 6])
                  (trace ++ [dial1 (oracle (trace.length + 1)) it]) := by
          simp [retry_go, hok]
        set res := dial1 (oracle (trace.length + 1)) it with hres
        have hlen : (trace ++ [res]).length = trace.length + 1 := by simp
        have hlast : (trace ++ [res]).getLast? = some res := List.getLast?_concat _
        have htr : ∀ r ∈ trace ++ [res], r.ok = false := by
          intro r hr
          rcases List.mem_append.mp hr with hr | hr
          · exact h r hr
          · simpa [List.mem_singleton.mp hr] using hok'
        obtain ⟨t', e1, e2, _, e4, e5, e6, e7⟩ :=
          ih (trace ++ [res]) (delays ++ [min (backoff * ((trace.length + 1 : Nat) : ℚ)) 6]) htr
        rw [hlen, hlast] at e1 e4 e7
        refine ⟨res :: t', ?_, by simp only [List.length_cons]; omega,
          by simp only [List.length_cons]; omega, ?_, ?_, ?_, ?_⟩
        · rw [hstep, e1, List.append_assoc]
          rfl
        · rw [hstep, e4]
          congr 1
          simp only [List.length_cons]
          omega
        · intro r hr
          apply e5
          rw [List.append_assoc, List.singleton_append]
          exact hr
        · intro j hj
          match j with
          | 0 => simp
          | j' + 1 =>
              have he := e6 j' (by simpa using hj)
              rw [hlen] at he
              have harith : trace.length + 1 + j' + 1 = trace.length + (j' + 1) + 1 := by
                omega
              rw [harith] at he
              simpa using he
        · intro hall _
          rcases Nat.eq_zero_or_pos fuel with hf0 | hfpos
          · subst hf0
            have ht0 : t' = [] := List.length_eq_zero.mp (by omega)
            subst ht0
            refine ⟨by simp, ?_⟩
            rw [hstep]
            simp [retry_go, hres, setAttempts]
          · obtain ⟨el, eo⟩ := e7 hall hfpos
            refine ⟨by simp only [List.length_cons]; omega, ?_⟩
            have harith : trace.length + 1 + fuel = trace.length + (fuel + 1) := by
              omega
            rw [hstep, eo, harith]

/-- C1: with `retries ≥ 0`, `dial_with_retries` issues at most `retries + 1`
and at least one dispatch call, the returned `attempts` field equals the
number of dispatch calls actually issued, every issued call before the final
one failed (so the loop stops immediately after the first success), and the
`j`-th issued call is `dial_once` for attempt number `j + 1`. -/
theorem retry_attempt_bound (oracle : Nat → Except PyExc ProviderResp) (it : Item)
    (retries : Int) (backoff : ℚ) (h : 0 ≤ retries) :
    1 ≤ (dwr_trace oracle it retries backoff).length ∧
    (dwr_trace oracle it retries backoff).length ≤ retries.toNat + 1 ∧
    (dwr_result oracle it retries backoff).attempts =
      some (dwr_trace oracle it retries backoff).length ∧
    (∀ r ∈ (dwr_trace oracle it retries backoff).dropLast, r.ok = false) ∧
    (∀ j, j < (dwr_trace oracle it retries backoff).length →
      (dwr_trace oracle it retries backoff)[j]? = some (dial1 (oracle (j + 1)) it)) := by
  have hfuel : (retries + 1).toNat = retries.toNat + 1 := by omega
  obtain ⟨t, e1, e2, e3, e4, e5, e6, -⟩ :=
    retry_go_spec oracle it backoff ((retries + 1).toNat) [] [] (by simp)
  simp only [List.length_nil, List.getLast?_nil, List.nil_append] at e1 e2 e3 e4 e5 e6
  have htr : dwr_trace oracle it retries backoff = t := e1
  refine ⟨?_, ?_, ?_, ?_, ?_⟩
  · rw [htr]
    exact e3 (by omega)
  · rw [htr]
    omega
  · rw [htr]
    simpa [dwr_result, dial_with_retries] using e4
  · rw [htr]
    exact e5
  · intro j hj
    rw [htr] at hj ⊢
    simpa [Nat.add_comm] using e6 j hj

/-- Witness for C1 at a concrete input: a complete item whose provider times
out on every attempt, `retries = 2`, `backoff = 2`. -/
theorem retry_attempt_bound_witness :
    (0 : Int) ≤ 2 ∧
    (1 ≤ (dwr_trace timeoutOracle fullItem 2 2).length ∧
     (dwr_trace timeoutOracle fullItem 2 2).length ≤ (2 : Int).toNat + 1 ∧
     (dwr_result timeoutOracle fullItem 2 2).attempts =
       some (dwr_trace timeoutOracle fullItem 2 2).length ∧
     (∀ r ∈ (dwr_trace timeoutOracle fullItem 2 2).dropLast, r.ok = false) ∧
     (∀ j, j < (dwr_trace timeoutOracle fullItem 2 2).length →
       (dwr_trace timeoutOracle fullItem 2 2)[j]? =
         some (dial1 (timeoutOracle (j + 1)) fullItem))) :=
  ⟨by decide, retry_attempt_bound timeoutOracle fullItem 2 2 (by decide)⟩

/-- C10: with `retries < 0` the guard `attempts <= retries` fails at once,
so no dispatch attempt is issued, no backoff is slept, and the result is the
fallback `{"ok": False, "error": "Unknown error", "attempts": 0}`. -/
theorem negative_retries_behavior (oracle : Nat → Except PyExc ProviderResp)
    (it : Item) (backoff : ℚ) (retries : Int) (h : retries < 0) :
    dial_with_retries oracle it retries backoff =
      ({ok := false, error := some "Unknown error", attempts := some 0}, [], []) := by
  have h0 : (retries + 1).toNat = 0 := by omega
  unfold dial_with_retries
  rw [h0]
  rfl

/-- Witness for C10 at `retries = -1`. -/
theorem negative_retries_behavior_witness :
    (-1 : Int) < 0 ∧
    dial_with_retries (fun _ => Except.error ⟨"E", "m"⟩) {} (-1) 2 =
      ({ok := false, error := some "Unknown error", attempts := some 0}, [], []) :=
  ⟨by decide,
   negative_retries_behavior (fun _ => Except.error ⟨"E", "m"⟩) {} 2 (-1) (by decide)⟩

/-- C8: `dial_once` converts a raised provider exception into a `Failed`
result whose error message is the exception's type name and message (it
never propagates the exception), still counting as one network call; and
when every attempt fails, `dial_with_retries` returns the final attempt's
own failure result with the `attempts` count added — not a generic message. -/
theorem error_propagation_spec (oracle : Nat → Except PyExc ProviderResp) (it : Item)
    (e : PyExc) (retries : Int) (backoff : ℚ) (hr : 0 ≤ retries)
    (hm : missingFields it = [])
    (hfail : ∀ k, (dial1 (oracle k) it).ok = false) :
    dial1 (Except.error e) it =
      {ok := false, error := some (e.name ++ ": " ++ e.msg)} ∧
    (dial_once (Except.error e) it).2 = 1 ∧
    dwr_result oracle it retries backoff =
      setAttempts (dial1 (oracle (retries.toNat + 1)) it) (retries.toNat + 1) := by
  have hfuel : (retries + 1).toNat = retries.toNat + 1 := by omega
  refine ⟨by simp [dial1, dial_once, hm], by simp [dial_once, hm], ?_⟩
  obtain ⟨t, -, -, -, -, -, -, e7⟩ :=
    retry_go_spec oracle it backoff ((retries + 1).toNat) [] [] (by simp)
  obtain ⟨-, eo⟩ := e7 hfail (by omega)
  simp only [List.length_nil, List.getLast?_nil, Nat.zero_add] at eo
  rw [dwr_result, dial_with_retries, eo, hfuel]

/-- Witness for C8: a complete item, a provider raising `Timeout: boom` on
every attempt, `retries = 1`. -/
theorem error_propagation_spec_witness :
    (0 : Int) ≤ 1 ∧
    missingFields fullItem = [] ∧
    (∀ k, (dial1 (timeoutOracle k) fullItem).ok = false) ∧
    (dial1 (Except.error ⟨"ApiError", "bad request"⟩) fullItem =
      {ok := false, error := some ("ApiError" ++ ": " ++ "bad request")} ∧
    (dial_once (Except.error ⟨"ApiError", "bad request"⟩) fullItem).2 = 1 ∧
    dwr_result timeoutOracle fullItem 1 2 =
      setAttempts (dial1 (timeoutOracle ((1 : Int).toNat + 1)) fullItem)
        ((1 : Int).toNat + 1)) :=
  ⟨by decide, by decide, fun _ => rfl,
   error_propagation_spec timeoutOracle fullItem
     ⟨"ApiError", "bad request"⟩ 1 2 (by decide) (by decide) (fun _ => rfl)⟩

/-- When every dispatch attempt fails, the loop sleeps once after each of
its `fuel` attempts: the sleep following attempt `k` is
`min(backoff × k, 6.0)` seconds — which is the delay imposed before attempt
`k + 1`, and an extra trailing sleep after the final attempt. -/
lemma retry_go_delays (oracle : Nat → Except PyExc ProviderResp) (it : Item) (backoff : ℚ)
    (hfail : ∀ k, (dial1 (oracle k) it).ok = false) :
    ∀ (fuel : Nat) (trace : List DialResult) (delays : List ℚ),
      (retry_go oracle it backoff fuel trace.length trace.getLast? delays trace).2.2
        = delays ++ (List.range fuel).map
            (fun j => min (backoff * ((trace.length + j + 1 : Nat) : ℚ)) 6) := by
  intro fuel
  induction fuel with
  | zero => intro trace delays; simp [retry_go]
  | succ fuel ih =>
      intro trace delays
      have hok : (dial1 (oracle (trace.length + 1)) it).ok = false := hfail _
      have hstep :
          retry_go oracle it backoff (fuel + 1) trace.length trace.getLast? delays trace
            = retry_go oracle it backoff fuel (trace.length + 1)
                (some (dial1 (oracle (trace.length + 1)) it))
                (delays ++ [min (backoff * ((trace.length + 1 : Nat) : ℚ)) 6])
                (trace ++ [dial1 (oracle (trace.length + 1)) it]) := by
        simp [retry_go, hok]
      set res := dial1 (oracle (trace.length + 1)) it with hres
      have hlen : (trace ++ [res]).length = trace.length + 1 := by simp
      have hlast : (trace ++ [res]).getLast? = some res := List.getLast?_concat _
      have hrec := ih (trace ++ [res]) (delays ++ [min (backoff * ((trace.length + 1 : Nat) : ℚ)) 6])
      rw [hlen, hlast] at hrec
      rw [hstep, hrec, List.range_succ_eq_map]
      simp only [List.map_cons, List.map_map, List.append_assoc, List.singleton_append,
        Nat.add_zero]
      congr 2
      apply List.map_congr_left
      intro a _
      simp only [Function.comp, Nat.succ_eq_add_one]
      have h2 : trace.length + 1 + a + 1 = trace.length + (a + 1) + 1 := by omega
      rw [h2]

/-- C2 (code bug): with `retries = 2` and `backoff_seconds = 2.0` on an item
that fails every attempt, the code sleeps `[2.0, 4.0, 6.0]` — the delays
before attempts 2 and 3 are 2.0s and 4.0s as the claim states, but a third
backoff of `min(2.0 × 3, 6.0) = 6.0` seconds is also slept after the final
(third) failed attempt, where the claim requires no delay at all. -/
theorem backoff_after_last_failure :
    dwr_delays (fun _ => Except.ok ({} : ProviderResp)) failItem 2 2 = [2, 4, 6] ∧
    (dwr_result (fun _ => Except.ok ({} : ProviderResp)) failItem 2 2).attempts = some 3 := by
  constructor
  · have h := retry_go_delays (fun _ => Except.ok ({} : ProviderResp)) failItem 2
      (fun _ => rfl) 3 [] []
    simp only [List.length_nil, List.getLast?_nil, List.nil_append] at h
    rw [dwr_delays, dial_with_retries]
    rw [show ((2 : Int) + 1).toNat = 3 from rfl, h]
    norm_num [List.range_succ, min_def]
  · rfl

/-- C3: when any required field of an item is missing or empty, a single
dispatch attempt fails immediately: `ok = False`, the error message is
exactly `"Missing fields: "` followed by the comma-separated missing field
names, and zero network calls to the provider are made. -/
theorem missing_fields_no_network (oracle : Except PyExc ProviderResp) (it : Item)
    (h : falsy it.to_number ∨ falsy it.agent_id ∨ falsy it.agent_phone_number_id) :
    (dial_once oracle it).1.ok = false ∧
    (dial_once oracle it).1.error =
      some ("Missing fields: " ++ String.intercalate ", " (missingFields it)) ∧
    (dial_once oracle it).2 = 0 := by
  have hne : missingFields it ≠ [] := by
    rcases h with h | h | h
    · have hm : "to_number" ∈ missingFields it := by
        simp only [missingFields, List.mem_filter]
        exact ⟨by simp [requiredKeys], by simpa [itemGet] using h⟩
      exact List.ne_nil_of_mem hm
    · have hm : "agent_id" ∈ missingFields it := by
        simp only [missingFields, List.mem_filter]
        exact ⟨by simp [requiredKeys], by simpa [itemGet] using h⟩
      exact List.ne_nil_of_mem hm
    · have hm : "agent_phone_number_id" ∈ missingFields it := by
        simp only [missingFields, List.mem_filter]
        exact ⟨by simp [requiredKeys], by simpa [itemGet] using h⟩
      exact List.ne_nil_of_mem hm
  refine ⟨?_, ?_, ?_⟩ <;> simp [dial_once, hne]

/-- Witness for C3: an item missing `to_number` and
`agent_phone_number_id`. -/
theorem missing_fields_no_network_witness :
    (falsy partialItem.to_number ∨ falsy partialItem.agent_id ∨
      falsy partialItem.agent_phone_number_id) ∧
    ((dial_once (Except.ok ({} : ProviderResp)) partialItem).1.ok = false ∧
     (dial_once (Except.ok ({} : ProviderResp)) partialItem).1.error =
       some ("Missing fields: " ++ String.intercalate ", " (missingFields partialItem)) ∧
     (dial_once (Except.ok ({} : ProviderResp)) partialItem).2 = 0) :=
  ⟨Or.inl rfl,
   missing_fields_no_network (Except.ok ({} : ProviderResp)) partialItem (Or.inl rfl)⟩

/-! ### Behaviour of the batch loop -/

/-- The batch loop produces one result per input item. -/
lemma batch_go_length (oracle : Nat → Nat → Except PyExc ProviderResp)
    (d : ℚ) (retries : Int) (backoff : ℚ) (n : Nat) :
    ∀ (l : List Item) (i : Nat),
      ((batch_go oracle d retries backoff n l i).1).length = l.length := by
  intro l
  induction l with
  | nil => intro i; rfl
  | cons a tl ih => intro i; simp [batch_go, ih]

/-- The `j`-th batch result carries index `i + j` and is the retry
controller's outcome for the `j`-th item. -/
lemma batch_go_getElem? (oracle : Nat → Nat → Except PyExc ProviderResp)
    (d : ℚ) (retries : Int) (backoff : ℚ) (n : Nat) :
    ∀ (l : List Item) (i j : Nat) (x : Item), l[j]? = some x →
      ((batch_go oracle d retries backoff n l i).1)[j]? =
        some (i + j, (dial_with_retries (oracle (i + j)) x retries backoff).1) := by
  intro l
  induction l with
  | nil => intro i j x hx; simp at hx
  | cons a tl ih =>
      intro i j x hx
      match j with
      | 0 =>
          simp only [List.getElem?_cons_zero, Option.some.injEq] at hx
          subst hx
          simp [batch_go]
      | j' + 1 =>
          simp only [List.getElem?_cons_succ] at hx
          have hrec := ih (i + 1) j' x hx
          have harith : i + 1 + j' = i + (j' + 1) := by omega
          rw [harith] at hrec
          simpa [batch_go] using hrec

/-- The indices of the batch results are `i, i+1, …` in input order. -/
lemma batch_go_fst (oracle : Nat → Nat → Except PyExc ProviderResp)
    (d : ℚ) (retries : Int) (backoff : ℚ) (n : Nat) :
    ∀ (l : List Item) (i : Nat),
      ((batch_go oracle d retries backoff n l i).1).map Prod.fst
        = List.range' i l.length := by
  intro l
  induction l with
  | nil => intro i; rfl
  | cons a tl ih =>
      intro i
      simp only [batch_go, List.map_cons, List.length_cons, List.range'_succ, ih]

/-- With a positive inter-item delay, the batch loop sleeps after every item
except the last: starting at index `i` with `i + l.length = n + 1`, the
slept-after indices are `i, …, n - 1`. -/
lemma batch_go_delays_pos (oracle : Nat → Nat → Except PyExc ProviderResp)
    (d : ℚ) (retries : Int) (backoff : ℚ) (n : Nat) (hd : 0 < d) :
    ∀ (l : List Item) (i : Nat), i + l.length = n + 1 →
      (batch_go oracle d retries backoff n l i).2 = List.range' i (l.length - 1) := by
  intro l
  induction l with
  | nil => intro i _; rfl
  | cons a tl ih =>
      intro i hi
      cases tl with
      | nil =>
          show (if 0 < d ∧ i < n then [i] else []) ++ ([] : List Nat) = _
          have hin : i = n := by simp only [List.length_cons, List.length_nil] at hi; omega
          rw [if_neg (fun hc => absurd hc.2 (by omega))]
          rfl
      | cons b tl2 =>
          have hlt : i < n := by
            simp only [List.length_cons] at hi
            omega
          have hrec := ih (i + 1) (by simp only [List.length_cons] at hi ⊢; omega)
          show (if 0 < d ∧ i < n then [i] else [])
              ++ (batch_go oracle d retries backoff n (b :: tl2) (i + 1)).2 = _
          rw [if_pos ⟨hd, hlt⟩, hrec]
          simp only [List.length_cons, Nat.add_sub_cancel, List.range'_succ,
            List.singleton_append]

/-- C7: for a non-empty batch request the endpoint processes every item —
one result per item, no abort on failure — and returns HTTP 200 with
`ok = true`, `total` = the number of items, `successes` = the number of
per-item results with `ok`, and results in input order, each carrying its
1-based original index and the retry controller's outcome for that item. -/
theorem batch_summary_spec (oracle : Nat → Nat → Except PyExc ProviderResp)
    (items : List Item) (d : ℚ) (retries : Int) (backoff : ℚ) (h : items ≠ []) :
    (api_call_batch oracle items d retries backoff).ok = true ∧
    (api_call_batch oracle items d retries backoff).status = 200 ∧
    (api_call_batch oracle items d retries backoff).total = items.length ∧
    ((api_call_batch oracle items d retries backoff).results).length = items.length ∧
    ((api_call_batch oracle items d retries backoff).results).map Prod.fst =
      List.range' 1 items.length ∧
    (∀ j x, items[j]? = some x →
      ((api_call_batch oracle items d retries backoff).results)[j]? =
        some (j + 1, (dial_with_retries (oracle (j + 1)) x retries backoff).1)) ∧
    (api_call_batch oracle items d retries backoff).successes =
      (((api_call_batch oracle items d retries backoff).results).filter
        (fun p => p.2.ok)).length := by
  simp only [api_call_batch, if_neg h]
  refine ⟨trivial, trivial, trivial, ?_, ?_, ?_, trivial⟩
  · exact batch_go_length oracle d retries backoff items.length items 1
  · exact batch_go_fst oracle d retries backoff items.length items 1
  · intro j x hx
    have hrec := batch_go_getElem? oracle d retries backoff items.length items 1 j x hx
    have harith : 1 + j = j + 1 := by omega
    rw [harith] at hrec
    exact hrec

/-- Witness for C7: a two-item batch (one complete item, one missing every
required field) with `retries = 0`. -/
theorem batch_summary_spec_witness :
    ([fullItem, partialItem] ≠ ([] : List Item)) ∧
    ((api_call_batch timeoutOracle2 [fullItem, partialItem] 1 0 2).ok = true ∧
     (api_call_batch timeoutOracle2 [fullItem, partialItem] 1 0 2).status = 200 ∧
     (api_call_batch timeoutOracle2 [fullItem, partialItem] 1 0 2).total =
       [fullItem, partialItem].length ∧
     ((api_call_batch timeoutOracle2 [fullItem, partialItem] 1 0 2).results).length =
       [fullItem, partialItem].length ∧
     ((api_call_batch timeoutOracle2 [fullItem, partialItem] 1 0 2).results).map Prod.fst =
       List.range' 1 [fullItem, partialItem].length ∧
     (∀ j x, [fullItem, partialItem][j]? = some x →
       ((api_call_batch timeoutOracle2 [fullItem, partialItem] 1 0 2).results)[j]? =
         some (j + 1, (dial_with_retries (timeoutOracle2 (j + 1)) x 0 2).1)) ∧
     (api_call_batch timeoutOracle2 [fullItem, partialItem] 1 0 2).successes =
       (((api_call_batch timeoutOracle2 [fullItem, partialItem] 1 0 2).results).filter
         (fun p => p.2.ok)).length) :=
  ⟨by decide,
   batch_summary_spec timeoutOracle2 [fullItem, partialItem] 1 0 2 (by decide)⟩

/-! ### Behaviour of the worklist selection -/

/-- Membership characterisation of the selection loop: a numbered row is
produced precisely when it sits at the corresponding position of the
scanned list and is pending (status ≠ SENT after trim/upper, and not
entirely blank). -/
lemma rows_go_mem (idx_status : Option Nat) :
    ∀ (l : List (List String)) (s j : Nat) (row : List String),
      ((j, row) ∈ rows_go idx_status s l) ↔
        ∃ k, l[k]? = some row ∧ j = s + k ∧ RowPending idx_status row := by
  intro l
  induction l with
  | nil => intro s j row; simp [rows_go]
  | cons r rest ih =>
      intro s j row
      by_cases hA : pyUpper (pyStrip (statusCell r idx_status)) = "SENT"
      · rw [show rows_go idx_status s (r :: rest) = rows_go idx_status (s + 1) rest from
          by rw [rows_go, if_pos hA], ih]
        constructor
        · rintro ⟨k, hk, rfl, hp⟩
          exact ⟨k + 1, by simpa using hk, by omega, hp⟩
        · rintro ⟨k, hk, hj, hp⟩
          match k with
          | 0 =>
              simp only [List.getElem?_cons_zero, Option.some.injEq] at hk
              subst hk
              exact absurd hA hp.1
          | k' + 1 =>
              simp only [List.getElem?_cons_succ] at hk
              exact ⟨k', hk, by omega, hp⟩
      · by_cases hB : ∀ c ∈ r, pyStrip c = ""
        · rw [show rows_go idx_status s (r :: rest) = rows_go idx_status (s + 1) rest from
            by rw [rows_go, if_neg hA, if_pos hB], ih]
          constructor
          · rintro ⟨k, hk, rfl, hp⟩
            exact ⟨k + 1, by simpa using hk, by omega, hp⟩
          · rintro ⟨k, hk, hj, hp⟩
            match k with
            | 0 =>
                simp only [List.getElem?_cons_zero, Option.some.injEq] at hk
                subst hk
                obtain ⟨c, hc, hne⟩ := hp.2
                exact absurd (hB c hc) hne
            | k' + 1 =>
                simp only [List.getElem?_cons_succ] at hk
                exact ⟨k', hk, by omega, hp⟩
        · rw [show rows_go idx_status s (r :: rest)
              = (s, r) :: rows_go idx_status (s + 1) rest from
            by rw [rows_go, if_neg hA, if_neg hB], List.mem_cons, ih]
          constructor
          · rintro (heq | ⟨k, hk, rfl, hp⟩)
            · have hj : j = s := congrArg Prod.fst heq
              have hr : row = r := congrArg Prod.snd heq
              subst hj
              subst hr
              refine ⟨0, by simp, by omega, hA, ?_⟩
              push_neg at hB
              exact hB
            · exact ⟨k + 1, by simpa using hk, by omega, hp⟩
          · rintro ⟨k, hk, hj, hp⟩
            match k with
            | 0 =>
                simp only [List.getElem?_cons_zero, Option.some.injEq] at hk
                subst hk
                left
                rw [hj]
                simp
            | k' + 1 =>
                simp only [List.getElem?_cons_succ] at hk
                exact Or.inr ⟨k', hk, by omega, hp⟩

/-- C4: a worklist row (at 1-based sheet row number `j + 2`) is selected as
pending if and only if its status cell, trimmed and upper-cased, is not
exactly `"SENT"` and the row is not entirely blank.  In particular blank
rows are never selected and `FAILED` rows are selected again. -/
theorem pending_selection_iff (values : List (List String)) (idx_status : Option Nat)
    (j : Nat) (row : List String) (hj : (values.drop 1)[j]? = some row) :
    ((j + 2, row) ∈ rows_to_send values idx_status) ↔ RowPending idx_status row := by
  rw [rows_to_send, rows_go_mem]
  constructor
  · rintro ⟨k, hk, hjk, hp⟩
    exact hp
  · intro hp
    exact ⟨j, hj, by omega, hp⟩

/-- Witness for C4 on a concrete sheet with a lower-case, padded status. -/
theorem pending_selection_iff_witness :
    (sheetW.drop 1)[0]? = some rowW ∧
    (((0 : Nat) + 2, rowW) ∈ rows_to_send sheetW (some 2) ↔ RowPending (some 2) rowW) :=
  ⟨rfl, pending_selection_iff sheetW (some 2) 0 rowW rfl⟩

/-- C5 counterexample: a row whose persisted status is `FAILED` IS selected
again by `rows_to_send` on the next run — contradicting the claim that every
row already marked Sent or Failed is excluded from future pending
selections. -/
theorem failed_row_reselected_cex :
    (2, row_cex) ∈ rows_to_send sheet_cex (some 2) := by decide

/-- C5 (amended): a row whose status (trimmed, case-insensitive) is `SENT`
is excluded from every future pending selection, but a row marked `FAILED`
is selected again on the next run (it is not blank, and its status differs
from SENT). -/
theorem sent_excluded_failed_retried (values : List (List String))
    (idx_status : Option Nat) (j : Nat) (row : List String)
    (hj : (values.drop 1)[j]? = some row) :
    (pyUpper (pyStrip (statusCell row idx_status)) = "SENT" →
      (j + 2, row) ∉ rows_to_send values idx_status) ∧
    (pyUpper (pyStrip (statusCell row idx_status)) = "FAILED" →
      (∃ c ∈ row, pyStrip c ≠ "") →
      (j + 2, row) ∈ rows_to_send values idx_status) := by
  constructor
  · intro hs hmem
    rw [rows_to_send, rows_go_mem] at hmem
    obtain ⟨k, hk, hjk, hp⟩ := hmem
    exact hp.1 hs
  · intro hs hblank
    rw [rows_to_send, rows_go_mem]
    exact ⟨j, hj, by omega, ⟨by rw [hs]; decide, hblank⟩⟩

/-- Witness for C5 (amended) on the concrete `FAILED` sheet. -/
theorem sent_excluded_failed_retried_witness :
    (sheet_cex.drop 1)[0]? = some row_cex ∧
    ((pyUpper (pyStrip (statusCell row_cex (some 2))) = "SENT" →
       ((0 : Nat) + 2, row_cex) ∉ rows_to_send sheet_cex (some 2)) ∧
     (pyUpper (pyStrip (statusCell row_cex (some 2))) = "FAILED" →
       (∃ c ∈ row_cex, pyStrip c ≠ "") →
       ((0 : Nat) + 2, row_cex) ∈ rows_to_send sheet_cex (some 2))) :=
  ⟨rfl, sent_excluded_failed_retried sheet_cex (some 2) 0 row_cex rfl⟩

/-! ### The rate governor and the flush phase -/

/-- Every branch of the per-row loop body writes its update to the row it
was processing. -/
lemma process_row_rowNum (sendOracle : Nat → Nat → Except String String) (dryRun : Bool)
    (idx_number idx_message : Option Nat) (ts : String) (rn : Nat) (row : List String) :
    (process_row sendOracle dryRun idx_number idx_message ts rn row).rowNum = rn := by
  unfold process_row
  split
  · rfl
  · split
    · rfl
    · split
      · rfl
      · rfl

/-- C6: the run dispatches exactly the first `min(N, cap)` candidates in
worklist order; every status write of the run targets one of those selected
rows (one write per selected row), so candidates beyond the cap receive no
status write; and with a positive inter-item delay the batch loop sleeps
after every item except the last. -/
theorem cap_and_pacing (targets : List (Nat × List String)) (cap : Nat)
    (sendOracle : Nat → Nat → Except String String) (dryRun : Bool)
    (idx_number idx_message : Option Nat) (ts : String)
    (coracle : Nat → Nat → Except PyExc ProviderResp) (items : List Item)
    (d : ℚ) (retries : Int) (backoff : ℚ) (hd : 0 < d) :
    (to_send targets cap).length = min targets.length cap ∧
    (∀ j, j < (to_send targets cap).length →
      (to_send targets cap)[j]? = targets[j]?) ∧
    (run_updates sendOracle dryRun idx_number idx_message ts (to_send targets cap)).length
      = (to_send targets cap).length ∧
    (∀ u ∈ run_updates sendOracle dryRun idx_number idx_message ts (to_send targets cap),
      ∃ t ∈ to_send targets cap, u.rowNum = t.1) ∧
    (api_call_batch coracle items d retries backoff).delays =
      List.range' 1 (items.length - 1) := by
  refine ⟨?_, ?_, ?_, ?_, ?_⟩
  · rw [to_send, List.length_take, Nat.min_comm]
  · intro j hj
    rw [to_send, List.length_take] at hj
    rw [to_send, List.getElem?_take, if_pos (by omega)]
  · rw [run_updates, List.length_map]
  · intro u hu
    rw [run_updates, List.mem_map] at hu
    obtain ⟨p, hp, hup⟩ := hu
    refine ⟨p, hp, ?_⟩
    rw [← hup]
    exact process_row_rowNum sendOracle dryRun idx_number idx_message ts p.1 p.2
  · by_cases hn : items = []
    · subst hn
      rfl
    · simp only [api_call_batch, if_neg hn]
      exact batch_go_delays_pos coracle d retries backoff items.length hd items 1 (by omega)

/-- Witness for C6: three candidates, cap 2, delay 1s on a two-item batch. -/
theorem cap_and_pacing_witness :
    (0 : ℚ) < 1 ∧
    ((to_send targetsW 2).length = min targetsW.length 2 ∧
     (∀ j, j < (to_send targetsW 2).length →
       (to_send targetsW 2)[j]? = targetsW[j]?) ∧
     (run_updates okSms false (some 0) (some 1) "T" (to_send targetsW 2)).length
       = (to_send targetsW 2).length ∧
     (∀ u ∈ run_updates okSms false (some 0) (some 1) "T" (to_send targetsW 2),
       ∃ t ∈ to_send targetsW 2, u.rowNum = t.1) ∧
     (api_call_batch timeoutOracle2 [fullItem, partialItem] 1 0 2).delays =
       List.range' 1 ([fullItem, partialItem].length - 1)) :=
  ⟨by norm_num,
   cap_and_pacing targetsW 2 okSms false (some 0) (some 1) "T"
     timeoutOracle2 [fullItem, partialItem] 1 0 2 (by norm_num)⟩

/-- Every chunk produced by the `chunk` generator has at most `n` elements. -/
lemma chunk_go_sizes {α : Type} (n : Nat) :
    ∀ (fuel : Nat) (l : List α) (g : List α), g ∈ chunk_go fuel l n → g.length ≤ n := by
  intro fuel
  induction fuel with
  | zero => intro l g hg; simp [chunk_go] at hg
  | succ fuel ih =>
      intro l g hg
      cases l with
      | nil => simp [chunk_go] at hg
      | cons a tl =>
          rw [chunk_go, List.mem_cons] at hg
          rcases hg with rfl | hg
          · exact List.length_take_le n (a :: tl)
          · exact ih _ g hg

/-- With positive chunk size and enough fuel, the chunks concatenate back to
the original list. -/
lemma chunk_go_flatten {α : Type} (n : Nat) (hn : 0 < n) :
    ∀ (fuel : Nat) (l : List α), l.length ≤ fuel → (chunk_go fuel l n).flatten = l := by
  intro fuel
  induction fuel with
  | zero =>
      intro l hl
      have h0 : l = [] := List.length_eq_zero.mp (by omega)
      subst h0
      rfl
  | succ fuel ih =>
      intro l hl
      cases l with
      | nil => rfl
      | cons a tl =>
          rw [chunk_go, List.flatten_cons,
            ih ((a :: tl).drop n) (by rw [List.length_drop]; simp only [List.length_cons] at hl ⊢; omega)]
          exact List.take_append_drop n (a :: tl)

/-- If the flush loop fails, the propagated value is exactly the raw store
error of the first failing chunk, whose position `firstFailIdx` reports. -/
lemma flushChunks_error (store : List RowUpdate → Except String Unit) :
    ∀ (gs : List (List RowUpdate)) (k : Nat) (e : String),
      flushChunks store gs k = Except.error e →
      ∃ p g, gs[p]? = some g ∧ store g = Except.error e ∧
        firstFailIdx store gs k = some (k + p) := by
  intro gs
  induction gs with
  | nil => intro k e he; simp [flushChunks] at he
  | cons g gs ih =>
      intro k e he
      cases hs : store g with
      | ok u =>
          rw [flushChunks, hs] at he
          simp only at he
          obtain ⟨p, g', hg', hs', hidx⟩ := ih (k + 1) e he
          refine ⟨p + 1, g', by simpa using hg', hs', ?_⟩
          simp only [firstFailIdx, hs]
          rw [hidx]
          congr 1
          omega
      | error e' =>
          rw [flushChunks, hs] at he
          simp only at he
          cases he
          exact ⟨0, g, by simp, hs, by simp [firstFailIdx, hs]⟩

/-- C9 (amended): the run's accumulated updates are flushed in chunks of at
most 100 row-updates which concatenate back to the full update list in
order; a failing chunk write is not swallowed — the loop aborts and the
store's raw error propagates to the caller unchanged — but the propagated
error is the bare store error for the first failing chunk, not a warning
identifying which chunk failed. -/
theorem flush_chunk_spec (updates : List RowUpdate)
    (store : List RowUpdate → Except String Unit) (e : String)
    (he : flush_updates store updates = Except.error e) :
    (∀ g ∈ chunk updates 100, g.length ≤ 100) ∧
    (chunk updates 100).flatten = updates ∧
    ∃ p g, flush_fail_idx store updates = some p ∧
      (chunk updates 100)[p]? = some g ∧ store g = Except.error e := by
  refine ⟨fun g hg => chunk_go_sizes 100 updates.length updates g hg,
    chunk_go_flatten 100 (by omega) updates.length updates le_rfl, ?_⟩
  obtain ⟨p, g, hg, hs, hidx⟩ := flushChunks_error store (chunk updates 100) 0 e he
  exact ⟨p, g, by simpa using hidx, hg, hs⟩

/-- Witness for C9 (amended): 101 updates against the always-failing store. -/
theorem flush_chunk_spec_witness :
    flush_updates store_fail0 updates_cex = Except.error "boom" ∧
    ((∀ g ∈ chunk updates_cex 100, g.length ≤ 100) ∧
     (chunk updates_cex 100).flatten = updates_cex ∧
     ∃ p g, flush_fail_idx store_fail0 updates_cex = some p ∧
       (chunk updates_cex 100)[p]? = some g ∧ store_fail0 g = Except.error "boom") :=
  ⟨rfl, flush_chunk_spec updates_cex store_fail0 "boom" rfl⟩

/-- C9 counterexample: flushing the same 101 updates against a store that
fails on chunk 0 and against a store that fails only on chunk 1 produces the
identical caller-visible outcome `Except.error "boom"` — so the propagated
failure does not (and cannot) list which chunk failed. -/
theorem flush_error_no_chunk_cex :
    flush_updates store_fail0 updates_cex = Except.error "boom" ∧
    flush_updates store_fail1 updates_cex = Except.error "boom" ∧
    flush_fail_idx store_fail0 updates_cex = some 0 ∧
    flush_fail_idx store_fail1 updates_cex = some 1 :=
  ⟨rfl, rfl, rfl, rfl⟩

end Bidness
